import Mathlib

/-!
Verification development for the kiko-nes 6502 interpreter
(src/src/cpu.rs, src/src/bus.rs, src/src/opcode.rs).

Machine integers are modelled as Nat with explicit reduction modulo 2^8 or
2^16 where the Rust types (u8, u16) wrap; `as i8` reinterpretation is
modelled by its two's-complement arithmetic on the 8-bit pattern.
Fallible operations (Rust panic, todo, unwrap, slice-index out of bounds)
return Option, with none standing for the fatal failure.
-/

set_option maxRecDepth 8192

/-- Addressing modes, from the enum `AddressingMode` in cpu.rs.  The source
variant named None is rendered here as NoneMode to avoid clashing with
Option notation-free names. -/
inductive AddressingMode where
  | Immediate
  | ZeroPage
  | ZeroPageX
  | ZeroPageY
  | Absolute
  | AbsoluteX
  | AbsoluteY
  | Indirect
  | IndirectX
  | IndirectY
  | NoneMode
deriving DecidableEq

/-- Opcode record, from `struct OpCode` in opcode.rs. -/
structure OpCode where
  code : Nat
  mnemonic : String
  len : Nat
  cycles : Nat
  mode : AddressingMode
deriving DecidableEq

/-- First quarter of the static opcode list CPU_OP_CODES from opcode.rs,
transcribed entry by entry in source order.  The list is split into four
pieces only to keep elaboration fast; their concatenation below is the
table. -/
def CPU_OP_CODES_A : List OpCode := [
  ⟨0x00, "BRK", 1, 7, .NoneMode⟩,
  ⟨0xaa, "TAX", 1, 2, .NoneMode⟩,
  ⟨0xa8, "TAY", 1, 2, .NoneMode⟩,
  ⟨0xba, "TSX", 1, 2, .NoneMode⟩,
  ⟨0x8a, "TXA", 1, 2, .NoneMode⟩,
  ⟨0x9a, "TXS", 1, 2, .NoneMode⟩,
  ⟨0x98, "TYA", 1, 2, .NoneMode⟩,
  ⟨0xca, "DEX", 1, 2, .NoneMode⟩,
  ⟨0x88, "DEY", 1, 2, .NoneMode⟩,
  ⟨0xe8, "INX", 1, 2, .NoneMode⟩,
  ⟨0xc8, "INY", 1, 2, .NoneMode⟩,
  ⟨0x48, "PHA", 1, 3, .NoneMode⟩,
  ⟨0x08, "PHP", 1, 3, .NoneMode⟩,
  ⟨0x68, "PLA", 1, 4, .NoneMode⟩,
  ⟨0x28, "PLP", 1, 4, .NoneMode⟩,
  ⟨0x40, "RTI", 1, 6, .NoneMode⟩,
  ⟨0xEA, "NOP", 1, 2, .NoneMode⟩,
  ⟨0xce, "DEC", 3, 6, .Absolute⟩,
  ⟨0xde, "DEC", 3, 7, .AbsoluteX⟩,
  ⟨0xc6, "DEC", 2, 5, .ZeroPage⟩,
  ⟨0xd6, "DEC", 2, 6, .ZeroPageX⟩,
  ⟨0xee, "INC", 3, 6, .Absolute⟩,
  ⟨0xfe, "INC", 3, 7, .AbsoluteX⟩,
  ⟨0xe6, "INC", 2, 5, .ZeroPage⟩,
  ⟨0xf6, "INC", 2, 6, .ZeroPageX⟩]

/-- Second quarter of CPU_OP_CODES from opcode.rs (note the duplicated 0xd9
entry: the source lists CMP AbsoluteX under the byte 0xd9 instead of 0xdd). -/
def CPU_OP_CODES_B : List OpCode := [
  ⟨0x69, "ADC", 2, 2, .Immediate⟩,
  ⟨0x65, "ADC", 2, 3, .ZeroPage⟩,
  ⟨0x75, "ADC", 2, 4, .ZeroPageX⟩,
  ⟨0x6d, "ADC", 3, 4, .Absolute⟩,
  ⟨0x7d, "ADC", 3, 4, .AbsoluteX⟩,
  ⟨0x79, "ADC", 3, 4, .AbsoluteY⟩,
  ⟨0x61, "ADC", 2, 6, .IndirectX⟩,
  ⟨0x71, "ADC", 2, 5, .IndirectY⟩,
  ⟨0x0a, "ASL", 1, 2, .NoneMode⟩,
  ⟨0x0e, "ASL", 3, 6, .Absolute⟩,
  ⟨0x1e, "ASL", 3, 7, .AbsoluteX⟩,
  ⟨0x06, "ASL", 2, 5, .ZeroPage⟩,
  ⟨0x16, "ASL", 2, 6, .ZeroPageX⟩,
  ⟨0xc9, "CMP", 2, 2, .Immediate⟩,
  ⟨0xcd, "CMP", 3, 4, .Absolute⟩,
  ⟨0xd9, "CMP", 3, 4, .AbsoluteX⟩,
  ⟨0xd9, "CMP", 3, 4, .AbsoluteY⟩,
  ⟨0xc5, "CMP", 2, 3, .ZeroPage⟩,
  ⟨0xd5, "CMP", 2, 4, .ZeroPageX⟩,
  ⟨0xc1, "CMP", 2, 6, .IndirectX⟩,
  ⟨0xd1, "CMP", 2, 5, .IndirectY⟩,
  ⟨0xe0, "CPX", 2, 2, .Immediate⟩,
  ⟨0xec, "CPX", 3, 4, .Absolute⟩,
  ⟨0xe4, "CPX", 2, 3, .ZeroPage⟩,
  ⟨0xc0, "CPY", 2, 2, .Immediate⟩,
  ⟨0xcc, "CPY", 3, 4, .Absolute⟩,
  ⟨0xc4, "CPY", 2, 3, .ZeroPage⟩]

/-- Third quarter of CPU_OP_CODES from opcode.rs. -/
def CPU_OP_CODES_C : List OpCode := [
  ⟨0x4a, "LSR", 1, 2, .NoneMode⟩,
  ⟨0x4e, "LSR", 3, 6, .Absolute⟩,
  ⟨0x5e, "LSR", 3, 7, .AbsoluteX⟩,
  ⟨0x46, "LSR", 2, 5, .ZeroPage⟩,
  ⟨0x56, "LSR", 2, 6, .ZeroPageX⟩,
  ⟨0xe9, "SBC", 2, 2, .Immediate⟩,
  ⟨0xe5, "SBC", 2, 3, .ZeroPage⟩,
  ⟨0xf5, "SBC", 2, 4, .ZeroPageX⟩,
  ⟨0xed, "SBC", 3, 4, .Absolute⟩,
  ⟨0xfd, "SBC", 3, 4, .AbsoluteX⟩,
  ⟨0xf9, "SBC", 3, 4, .AbsoluteY⟩,
  ⟨0xe1, "SBC", 2, 6, .IndirectX⟩,
  ⟨0xf1, "SBC", 2, 5, .IndirectY⟩,
  ⟨0xa9, "LDA", 2, 2, .Immediate⟩,
  ⟨0xa5, "LDA", 2, 3, .ZeroPage⟩,
  ⟨0xb5, "LDA", 2, 4, .ZeroPageX⟩,
  ⟨0xad, "LDA", 3, 4, .Absolute⟩,
  ⟨0xbd, "LDA", 3, 4, .AbsoluteX⟩,
  ⟨0xb9, "LDA", 3, 4, .AbsoluteY⟩,
  ⟨0xa1, "LDA", 2, 6, .IndirectX⟩,
  ⟨0xb1, "LDA", 2, 5, .IndirectY⟩,
  ⟨0xa2, "LDX", 2, 2, .Immediate⟩,
  ⟨0xa6, "LDX", 2, 4, .ZeroPage⟩,
  ⟨0xb6, "LDX", 2, 4, .ZeroPageY⟩,
  ⟨0xae, "LDX", 3, 3, .Absolute⟩,
  ⟨0xbe, "LDX", 3, 4, .AbsoluteY⟩,
  ⟨0xa0, "LDY", 2, 2, .Immediate⟩,
  ⟨0xa4, "LDY", 2, 3, .ZeroPage⟩,
  ⟨0xb4, "LDY", 2, 4, .ZeroPageX⟩,
  ⟨0xac, "LDY", 3, 4, .Absolute⟩,
  ⟨0xbc, "LDY", 3, 4, .AbsoluteX⟩]

/-- Fourth quarter of CPU_OP_CODES from opcode.rs. -/
def CPU_OP_CODES_D : List OpCode := [
  ⟨0x2a, "ROL", 1, 2, .NoneMode⟩,
  ⟨0x2e, "ROL", 3, 6, .Absolute⟩,
  ⟨0x3e, "ROL", 3, 7, .AbsoluteX⟩,
  ⟨0x26, "ROL", 2, 5, .ZeroPage⟩,
  ⟨0x36, "ROL", 2, 6, .ZeroPageX⟩,
  ⟨0x6a, "ROR", 1, 2, .NoneMode⟩,
  ⟨0x6e, "ROR", 3, 6, .Absolute⟩,
  ⟨0x7e, "ROR", 3, 7, .AbsoluteX⟩,
  ⟨0x66, "ROR", 2, 5, .ZeroPage⟩,
  ⟨0x76, "ROR", 2, 6, .ZeroPageX⟩,
  ⟨0x85, "STA", 2, 3, .ZeroPage⟩,
  ⟨0x95, "STA", 2, 4, .ZeroPageX⟩,
  ⟨0x8d, "STA", 3, 4, .Absolute⟩,
  ⟨0x9d, "STA", 3, 5, .AbsoluteX⟩,
  ⟨0x99, "STA", 3, 5, .AbsoluteY⟩,
  ⟨0x81, "STA", 2, 6, .IndirectX⟩,
  ⟨0x91, "STA", 2, 6, .IndirectY⟩,
  ⟨0x8e, "STX", 3, 4, .Absolute⟩,
  ⟨0x86, "STX", 2, 3, .ZeroPage⟩,
  ⟨0x96, "STX", 2, 4, .ZeroPageY⟩,
  ⟨0x8c, "STY", 3, 4, .Absolute⟩,
  ⟨0x84, "STY", 2, 3, .ZeroPage⟩,
  ⟨0x94, "STY", 2, 4, .ZeroPageX⟩]

/-- The full static opcode table CPU_OP_CODES from opcode.rs: the
concatenation of the four quarters above, in source order. -/
def CPU_OP_CODES : List OpCode :=
  CPU_OP_CODES_A ++ CPU_OP_CODES_B ++ CPU_OP_CODES_C ++ CPU_OP_CODES_D

/-- The lookup `OP_CODE_MAP.get(&code)` from opcode.rs: the map is built by
inserting every entry of CPU_OP_CODES in order, so a later entry with the
same code byte overwrites an earlier one; searching the reversed list
mirrors that HashMap behaviour. -/
def opLookup (code : Nat) : Option OpCode :=
  CPU_OP_CODES.reverse.find? (fun op => op.code == code)

/-- Status flag masks, from the bitflags block CPUFlags in cpu.rs. -/
def CPUFlags.CARRY : Nat := 0x01

/-- ZERO flag mask (bit 1), from cpu.rs. -/
def CPUFlags.ZERO : Nat := 0x02

/-- INTERRUPT_DISABLE flag mask (bit 2), from cpu.rs. -/
def CPUFlags.INTERRUPT_DISABLE : Nat := 0x04

/-- DECIMAL flag mask (bit 3), from cpu.rs. -/
def CPUFlags.DECIMAL : Nat := 0x08

/-- BREAK flag mask (bit 4), from cpu.rs. -/
def CPUFlags.BREAK : Nat := 0x10

/-- EXPANSION flag mask (bit 5), from cpu.rs. -/
def CPUFlags.EXPANSION : Nat := 0x20

/-- OVERFLOW flag mask (bit 6), from cpu.rs. -/
def CPUFlags.OVERFLOW : Nat := 0x40

/-- NEGATIVE flag mask (bit 7), from cpu.rs. -/
def CPUFlags.NEGATIVE : Nat := 0x80

/-- bitflags insert: `self.bits |= other.bits`. -/
def CPUFlags.insert (s f : Nat) : Nat := s ||| f

/-- bitflags remove: `self.bits &= !other.bits`, with ! the u8 complement. -/
def CPUFlags.remove (s f : Nat) : Nat := s &&& (0xff ^^^ f)

/-- bitflags contains: `(self.bits & other.bits) == other.bits`. -/
def CPUFlags.contains (s f : Nat) : Bool := s &&& f == f

/-- bitflags set(flag, b): insert when b, remove otherwise. -/
def CPUFlags.setFlag (s f : Nat) (b : Bool) : Nat :=
  if b then CPUFlags.insert s f else CPUFlags.remove s f

/-- The cartridge, reduced to the prg_rom byte slice the bus consumes
(cartridge.rs itself is outside the bus/cpu sources). -/
structure ROM where
  prg_rom : List Nat

/-- Bus state from bus.rs: 2 KiB vram plus the cartridge.  vram is a total
function; every access the source performs on the 2048-element array is
bounds-checked explicitly in the operations below, so an out-of-range index
(a Rust panic) shows up as none. -/
structure Bus where
  vram : Nat → Nat
  rom : ROM

/-- `Bus::new` from bus.rs: zeroed vram. -/
def Bus.new (rom : ROM) : Bus := { vram := fun _ => 0, rom := rom }

/-- `Bus::read_prg_rom` from bus.rs.  none models the index-out-of-bounds
panic when prg_rom is too short. -/
def Bus.read_prg_rom (b : Bus) (addr : Nat) : Option Nat :=
  let addr1 := addr - 0x8000
  let addr2 :=
    if b.rom.prg_rom.length = 0x4000 ∧ 0x4000 ≤ addr1 then addr1 % 0x4000 else addr1
  b.rom.prg_rom.get? addr2

/-- `Bus::mem_read` from bus.rs.  The PPU arm is the source's todo macro,
modelled as none; the catch-all arm logs and returns 0. -/
def Bus.mem_read (b : Bus) (addr : Nat) : Option Nat :=
  if addr ≤ 0x1fff then
    let mirror_down_addr := addr &&& 0x07ff
    if mirror_down_addr < 2048 then some (b.vram mirror_down_addr) else none
  else if 0x2000 ≤ addr ∧ addr ≤ 0x3fff then
    none
  else if 0x8000 ≤ addr ∧ addr ≤ 0xffff then
    b.read_prg_rom addr
  else
    some 0

/-- `Bus::mem_write` from bus.rs.  Note the RAM arm masks the address with
0b1111_1111_1111_1111 (all sixteen bits), not 0x07FF as the read side does;
the vram index is bounds-checked, so addresses 0x0800-0x1FFF produce none
(the Rust out-of-bounds panic).  The PPU arm is todo and the ROM arm is an
explicit panic, both none; the catch-all arm ignores the write. -/
def Bus.mem_write (b : Bus) (addr data : Nat) : Option Bus :=
  if addr ≤ 0x1fff then
    let mirror_down_addr := addr &&& 0xffff
    if mirror_down_addr < 2048 then
      some { b with vram := fun i => if i = mirror_down_addr then data else b.vram i }
    else none
  else if 0x2000 ≤ addr ∧ addr ≤ 0x3fff then
    none
  else if 0x8000 ≤ addr ∧ addr ≤ 0xffff then
    none
  else
    some b

/-- A memory capability: the `Mem` trait of cpu.rs, i.e. the two required
operations mem_read and mem_write over some carrier of memory state.
Fallible (none = panic). -/
structure MemIf (σ : Type) where
  read : σ → Nat → Option Nat
  write : σ → Nat → Nat → Option σ

/-- The Mem implementation of bus.rs wrapped as a capability. -/
def busIf : MemIf Bus := { read := Bus.mem_read, write := Bus.mem_write }

/-- Flat 64 KiB memory used for snippet execution. -/
def Ram : Type := Nat → Nat

/-- Modelled from the spec: the snippet-execution memory behind CPU::new.
cpu.rs constructs its bus with an argumentless `bus::Bus::new()` that is not
the two-argument constructor in src/src/bus.rs, so the memory the unit tests
and the spec's concrete scenarios run against is code of this repository
missing from src/.  Per the spec's snippet scenarios (load the bytes at
0x0600, store the reset vector at 0xFFFC, read operands and write results at
arbitrary 16-bit addresses), it is zero-initialized RAM covering the whole
16-bit address space, with total byte reads and writes. -/
def snippetIf : MemIf Ram :=
  { read := fun m a => some (m a),
    write := fun m a d => some (fun i => if i = a then d else m i) }

/-- Architectural CPU state from `struct CPU` in cpu.rs, generic over the
memory the Mem trait is implemented on (the bus field). -/
structure Machine (σ : Type) where
  register_a : Nat
  register_x : Nat
  register_y : Nat
  status : Nat
  stack_pointer : Nat
  program_counter : Nat
  mem : σ

/-- `mem_read` on CPU: delegate to the bus. -/
def Machine.mem_read (M : MemIf σ) (c : Machine σ) (addr : Nat) : Option Nat :=
  M.read c.mem addr

/-- `mem_write` on CPU: delegate to the bus. -/
def Machine.mem_write (M : MemIf σ) (c : Machine σ) (addr data : Nat) : Option (Machine σ) :=
  (M.write c.mem addr data).map (fun m => { c with mem := m })

/-- Default `mem_read_u16` of the Mem trait in cpu.rs: low byte at addr,
high byte at addr + 1; the u16 increment wraps modulo 2^16 (the release
semantics of the source's `addr + 1`, matching the spec invariant that all
integer operations are modulo 2^n). -/
def Machine.mem_read_u16 (M : MemIf σ) (c : Machine σ) (addr : Nat) : Option Nat := do
  let lo ← Machine.mem_read M c addr
  let hi ← Machine.mem_read M c ((addr + 1) % 65536)
  pure ((hi <<< 8) ||| lo)

/-- Default `mem_write_u16` of the Mem trait in cpu.rs: write the low byte
at addr, then the high byte at addr + 1 (u16 wrap as in mem_read_u16). -/
def Machine.mem_write_u16 (M : MemIf σ) (c : Machine σ) (addr data : Nat) : Option (Machine σ) := do
  let hi := (data >>> 8) % 256
  let lo := data &&& 0xff
  let c ← Machine.mem_write M c addr lo
  Machine.mem_write M c ((addr + 1) % 65536) hi

/-- STACK base 0x0100, from cpu.rs. -/
def STACK : Nat := 0x0100

/-- STACK_RESET 0xfd, from cpu.rs. -/
def STACK_RESET : Nat := 0xfd

/-- `CPU::stack_push`: write at STACK + S, then S := S - 1 with u8 wrap. -/
def Machine.stack_push (M : MemIf σ) (c : Machine σ) (value : Nat) : Option (Machine σ) :=
  (Machine.mem_write M c (STACK + c.stack_pointer) value).map
    (fun c => { c with stack_pointer := (c.stack_pointer + 255) % 256 })

/-- `CPU::stack_push_u16`: push the high byte, then the low byte. -/
def Machine.stack_push_u16 (M : MemIf σ) (c : Machine σ) (value : Nat) : Option (Machine σ) := do
  let hi := (value >>> 8) % 256
  let lo := value &&& 0xff
  let c ← Machine.stack_push M c hi
  Machine.stack_push M c lo

/-- `CPU::stack_pop`: S := S + 1 with u8 wrap, then read at STACK + S. -/
def Machine.stack_pop (M : MemIf σ) (c : Machine σ) : Option (Machine σ × Nat) :=
  let c := { c with stack_pointer := (c.stack_pointer + 1) % 256 }
  (Machine.mem_read M c (STACK + c.stack_pointer)).map (fun v => (c, v))

/-- `CPU::stack_pop_u16`: pop the low byte, then the high byte. -/
def Machine.stack_pop_u16 (M : MemIf σ) (c : Machine σ) : Option (Machine σ × Nat) := do
  let (c, lo) ← Machine.stack_pop M c
  let (c, hi) ← Machine.stack_pop M c
  pure (c, (hi <<< 8) ||| lo)

/-- `CPU::load` from cpu.rs: copy the program to 0x0600, 0x0601, ... and
then store 0x0600 little-endian at 0xFFFC, all through mem_write.  The
helper walks the byte list with its index. -/
def Machine.loadBytes (M : MemIf σ) : List Nat → Nat → Machine σ → Option (Machine σ)
  | [], _, c => some c
  | b :: rest, i, c =>
      (Machine.mem_write M c (0x0600 + i) b).bind (Machine.loadBytes M rest (i + 1))

/-- `CPU::load` itself (see loadBytes). -/
def Machine.load (M : MemIf σ) (c : Machine σ) (program : List Nat) : Option (Machine σ) :=
  (Machine.loadBytes M program 0 c).bind (fun c => Machine.mem_write_u16 M c 0xFFFC 0x0600)

/-- `CPU::reset` from cpu.rs: zero A/X/Y, restore S and P, then load PC from
the reset vector at 0xFFFC. -/
def Machine.reset (M : MemIf σ) (c : Machine σ) : Option (Machine σ) :=
  let c := { c with register_a := 0, register_x := 0, register_y := 0,
                    stack_pointer := STACK_RESET, status := 0b100100 }
  (Machine.mem_read_u16 M c 0xFFFC).map (fun pc => { c with program_counter := pc })

/-- `CPU::set_carry_flag`. -/
def Machine.set_carry_flag (c : Machine σ) : Machine σ :=
  { c with status := CPUFlags.insert c.status CPUFlags.CARRY }

/-- `CPU::remove_carry_flag`. -/
def Machine.remove_carry_flag (c : Machine σ) : Machine σ :=
  { c with status := CPUFlags.remove c.status CPUFlags.CARRY }

/-- `CPU::get_carry`: 1 when the carry flag is set, else 0. -/
def Machine.get_carry (c : Machine σ) : Nat :=
  if CPUFlags.contains c.status CPUFlags.CARRY then 1 else 0

/-- `CPU::update_negative_flags`: N from bit 7 of the result. -/
def Machine.update_negative_flags (c : Machine σ) (result : Nat) : Machine σ :=
  if result &&& 0x80 ≠ 0 then
    { c with status := CPUFlags.insert c.status CPUFlags.NEGATIVE }
  else
    { c with status := CPUFlags.remove c.status CPUFlags.NEGATIVE }

/-- `CPU::update_zero_flags`: Z from result == 0. -/
def Machine.update_zero_flags (c : Machine σ) (result : Nat) : Machine σ :=
  if result = 0 then
    { c with status := CPUFlags.insert c.status CPUFlags.ZERO }
  else
    { c with status := CPUFlags.remove c.status CPUFlags.ZERO }

/-- `CPU::update_zero_and_set_negative_flags`: Z then N. -/
def Machine.update_zero_and_set_negative_flags (c : Machine σ) (result : Nat) : Machine σ :=
  Machine.update_negative_flags (Machine.update_zero_flags c result) result

/-- `CPU::set_register_a`: assign A and set NZ on it. -/
def Machine.set_register_a (c : Machine σ) (value : Nat) : Machine σ :=
  let c := { c with register_a := value }
  Machine.update_zero_and_set_negative_flags c c.register_a

/-- `CPU::clone_status`: copy the status, force EXPANSION on, and force
BREAK on when the argument is true. -/
def Machine.clone_status (c : Machine σ) (b : Bool) : Nat :=
  let status := CPUFlags.insert c.status CPUFlags.EXPANSION
  if b then CPUFlags.insert status CPUFlags.BREAK else status

/-- `CPU::get_operand_addressing` from cpu.rs: resolve the effective
address for a mode, with 8-bit wraps inside page zero and 16-bit wraps for
absolute indexing.  The catch-all arm is the source's panic for Indirect
and NoneMode, modelled as none. -/
def Machine.get_operand_addressing (M : MemIf σ) (c : Machine σ) :
    AddressingMode → Option Nat
  | .Immediate => some c.program_counter
  | .ZeroPage => Machine.mem_read M c c.program_counter
  | .Absolute => Machine.mem_read_u16 M c c.program_counter
  | .ZeroPageX =>
      (Machine.mem_read M c c.program_counter).map
        (fun b => (b + c.register_x) % 256)
  | .ZeroPageY =>
      (Machine.mem_read M c c.program_counter).map
        (fun b => (b + c.register_y) % 256)
  | .AbsoluteX =>
      (Machine.mem_read_u16 M c c.program_counter).map
        (fun base => (base + c.register_x) % 65536)
  | .AbsoluteY =>
      (Machine.mem_read_u16 M c c.program_counter).map
        (fun base => (base + c.register_y) % 65536)
  | .IndirectX => do
      let addr ← Machine.mem_read M c c.program_counter
      let ptr := (addr + c.register_x) % 256
      let lo ← Machine.mem_read M c ptr
      let hi ← Machine.mem_read M c ((ptr + 1) % 256)
      pure ((hi <<< 8) ||| lo)
  | .IndirectY => do
      let addr ← Machine.mem_read M c c.program_counter
      let lo ← Machine.mem_read M c addr
      let hi ← Machine.mem_read M c ((addr + 1) % 256)
      let deref_base := (hi <<< 8) ||| lo
      pure ((deref_base + c.register_y) % 65536)
  | _ => none

/-- `CPU::read_value_from_memory`. -/
def Machine.read_value_from_memory (M : MemIf σ) (c : Machine σ)
    (mode : AddressingMode) : Option Nat :=
  (Machine.get_operand_addressing M c mode).bind (Machine.mem_read M c)

/-- `CPU::lda`. -/
def Machine.lda (M : MemIf σ) (c : Machine σ) (mode : AddressingMode) : Option (Machine σ) := do
  let addr ← Machine.get_operand_addressing M c mode
  let value ← Machine.mem_read M c addr
  pure (Machine.set_register_a c value)

/-- `CPU::ldx`. -/
def Machine.ldx (M : MemIf σ) (c : Machine σ) (mode : AddressingMode) : Option (Machine σ) := do
  let addr ← Machine.get_operand_addressing M c mode
  let value ← Machine.mem_read M c addr
  let c := { c with register_x := value }
  pure (Machine.update_zero_and_set_negative_flags c c.register_x)

/-- `CPU::ldy`. -/
def Machine.ldy (M : MemIf σ) (c : Machine σ) (mode : AddressingMode) : Option (Machine σ) := do
  let addr ← Machine.get_operand_addressing M c mode
  let value ← Machine.mem_read M c addr
  let c := { c with register_y := value }
  pure (Machine.update_zero_and_set_negative_flags c c.register_y)

/-- `CPU::tax`. -/
def Machine.tax (c : Machine σ) : Machine σ :=
  let c := { c with register_x := c.register_a }
  Machine.update_zero_and_set_negative_flags c c.register_x

/-- `CPU::tay`. -/
def Machine.tay (c : Machine σ) : Machine σ :=
  let c := { c with register_y := c.register_a }
  Machine.update_zero_and_set_negative_flags c c.register_y

/-- `CPU::tsx`. -/
def Machine.tsx (c : Machine σ) : Machine σ :=
  let c := { c with register_x := c.stack_pointer }
  Machine.update_zero_and_set_negative_flags c c.register_x

/-- `CPU::txa`. -/
def Machine.txa (c : Machine σ) : Machine σ :=
  let c := { c with register_a := c.register_x }
  Machine.update_zero_and_set_negative_flags c c.register_a

/-- `CPU::txs` (no flag change). -/
def Machine.txs (c : Machine σ) : Machine σ :=
  { c with stack_pointer := c.register_x }

/-- `CPU::tya`. -/
def Machine.tya (c : Machine σ) : Machine σ :=
  let c := { c with register_a := c.register_y }
  Machine.update_zero_and_set_negative_flags c c.register_a

/-- `CPU::dec`: read, wrapping_sub(1), write back, set NZ. -/
def Machine.dec (M : MemIf σ) (c : Machine σ) (mode : AddressingMode) : Option (Machine σ) := do
  let addr ← Machine.get_operand_addressing M c mode
  let v ← Machine.mem_read M c addr
  let value := (v + 255) % 256
  let c ← Machine.mem_write M c addr value
  pure (Machine.update_zero_and_set_negative_flags c value)

/-- `CPU::dex`. -/
def Machine.dex (c : Machine σ) : Machine σ :=
  let c := { c with register_x := (c.register_x + 255) % 256 }
  Machine.update_zero_and_set_negative_flags c c.register_x

/-- `CPU::dey`. -/
def Machine.dey (c : Machine σ) : Machine σ :=
  let c := { c with register_y := (c.register_y + 255) % 256 }
  Machine.update_zero_and_set_negative_flags c c.register_y

/-- `CPU::inc`: read, wrapping_add(1), write back, set NZ. -/
def Machine.inc (M : MemIf σ) (c : Machine σ) (mode : AddressingMode) : Option (Machine σ) := do
  let addr ← Machine.get_operand_addressing M c mode
  let v ← Machine.mem_read M c addr
  let value := (v + 1) % 256
  let c ← Machine.mem_write M c addr value
  pure (Machine.update_zero_and_set_negative_flags c value)

/-- `CPU::inx`. -/
def Machine.inx (c : Machine σ) : Machine σ :=
  let c := { c with register_x := (c.register_x + 1) % 256 }
  Machine.update_zero_and_set_negative_flags c c.register_x

/-- `CPU::iny`. -/
def Machine.iny (c : Machine σ) : Machine σ :=
  let c := { c with register_y := (c.register_y + 1) % 256 }
  Machine.update_zero_and_set_negative_flags c c.register_y

/-- `CPU::sta`. -/
def Machine.sta (M : MemIf σ) (c : Machine σ) (mode : AddressingMode) : Option (Machine σ) :=
  (Machine.get_operand_addressing M c mode).bind
    (fun addr => Machine.mem_write M c addr c.register_a)

/-- `CPU::stx`. -/
def Machine.stx (M : MemIf σ) (c : Machine σ) (mode : AddressingMode) : Option (Machine σ) :=
  (Machine.get_operand_addressing M c mode).bind
    (fun addr => Machine.mem_write M c addr c.register_x)

/-- `CPU::sty`. -/
def Machine.sty (M : MemIf σ) (c : Machine σ) (mode : AddressingMode) : Option (Machine σ) :=
  (Machine.get_operand_addressing M c mode).bind
    (fun addr => Machine.mem_write M c addr c.register_y)

/-- `CPU::add_to_register_a` from cpu.rs: the shared ADC path.  sum is the
16-bit A + data + carry-in; carry-out when sum > 0xFF; signed overflow via
`(data ^ result) & (A ^ result) & 0x80`; finally A := sum as u8 with NZ. -/
def Machine.add_to_register_a (c : Machine σ) (data : Nat) : Machine σ :=
  let sum := c.register_a + data + Machine.get_carry c
  let carry := 0xff < sum
  let c := if carry then Machine.set_carry_flag c else Machine.remove_carry_flag c
  let result := sum % 256
  let c :=
    if (data ^^^ result) &&& (c.register_a ^^^ result) &&& 0x80 ≠ 0 then
      { c with status := CPUFlags.insert c.status CPUFlags.OVERFLOW }
    else
      { c with status := CPUFlags.remove c.status CPUFlags.OVERFLOW }
  Machine.set_register_a c result

/-- `CPU::adc`. -/
def Machine.adc (M : MemIf σ) (c : Machine σ) (mode : AddressingMode) : Option (Machine σ) :=
  (Machine.read_value_from_memory M c mode).map (Machine.add_to_register_a c)

/-- The operand transformation in `CPU::sbc`:
`(value as i8).wrapping_neg().wrapping_sub(1) as u8`, i.e. two's-complement
negation of the 8-bit pattern followed by a wrapping decrement. -/
def sbcOperand (value : Nat) : Nat :=
  ((256 - value % 256) % 256 + 255) % 256

/-- `CPU::sbc`: feed the transformed operand to the ADC path. -/
def Machine.sbc (M : MemIf σ) (c : Machine σ) (mode : AddressingMode) : Option (Machine σ) :=
  (Machine.read_value_from_memory M c mode).map
    (fun value => Machine.add_to_register_a c (sbcOperand value))

/-- `CPU::pha`. -/
def Machine.pha (M : MemIf σ) (c : Machine σ) : Option (Machine σ) :=
  Machine.stack_push M c c.register_a

/-- `CPU::php`: push the status with BREAK and EXPANSION forced on. -/
def Machine.php (M : MemIf σ) (c : Machine σ) : Option (Machine σ) :=
  Machine.stack_push M c (Machine.clone_status c true)

/-- `CPU::pla`. -/
def Machine.pla (M : MemIf σ) (c : Machine σ) : Option (Machine σ) := do
  let (c, value) ← Machine.stack_pop M c
  pure (Machine.set_register_a c value)

/-- `CPU::plp`: pop into the status, then clear BREAK. -/
def Machine.plp (M : MemIf σ) (c : Machine σ) : Option (Machine σ) := do
  let (c, value) ← Machine.stack_pop M c
  let c := { c with status := value }
  pure { c with status := CPUFlags.remove c.status CPUFlags.BREAK }

/-- `CPU::brk`: set INTERRUPT_DISABLE, then push the status with BREAK and
EXPANSION forced on. -/
def Machine.brk (M : MemIf σ) (c : Machine σ) : Option (Machine σ) :=
  let c := { c with status := CPUFlags.insert c.status CPUFlags.INTERRUPT_DISABLE }
  Machine.stack_push M c (Machine.clone_status c true)

/-- `CPU::asl_a`: carry from bit 7, then A := A << 1 (u8 truncation). -/
def Machine.asl_a (c : Machine σ) : Machine σ :=
  let value := c.register_a
  let c := if value >>> 7 = 1 then Machine.set_carry_flag c else Machine.remove_carry_flag c
  Machine.set_register_a c ((value <<< 1) % 256)

/-- `CPU::asl` (memory form): carry from bit 7, shift, write back, set NZ. -/
def Machine.asl (M : MemIf σ) (c : Machine σ) (mode : AddressingMode) : Option (Machine σ) := do
  let addr ← Machine.get_operand_addressing M c mode
  let v ← Machine.mem_read M c addr
  let c := if v >>> 7 = 1 then Machine.set_carry_flag c else Machine.remove_carry_flag c
  let value := (v <<< 1) % 256
  let c ← Machine.mem_write M c addr value
  pure (Machine.update_zero_and_set_negative_flags c value)

/-- `CPU::lsr_a`: carry from bit 0, then A := A >> 1. -/
def Machine.lsr_a (c : Machine σ) : Machine σ :=
  let value := c.register_a
  let c := if value &&& 1 = 1 then Machine.set_carry_flag c else Machine.remove_carry_flag c
  Machine.set_register_a c (value >>> 1)

/-- `CPU::lsr` (memory form). -/
def Machine.lsr (M : MemIf σ) (c : Machine σ) (mode : AddressingMode) : Option (Machine σ) := do
  let addr ← Machine.get_operand_addressing M c mode
  let v ← Machine.mem_read M c addr
  let c := if v &&& 1 = 1 then Machine.set_carry_flag c else Machine.remove_carry_flag c
  let value := v >>> 1
  let c ← Machine.mem_write M c addr value
  pure (Machine.update_zero_and_set_negative_flags c value)

/-- `CPU::rol_a`: remember the old carry, carry from bit 7, shift left and
bring the old carry into bit 0. -/
def Machine.rol_a (c : Machine σ) : Machine σ :=
  let value := c.register_a
  let carry := CPUFlags.contains c.status CPUFlags.CARRY
  let c := if value >>> 7 = 1 then Machine.set_carry_flag c else Machine.remove_carry_flag c
  let value := (value <<< 1) % 256
  let value := if carry then value ||| 1 else value
  Machine.set_register_a c value

/-- `CPU::rol` (memory form). -/
def Machine.rol (M : MemIf σ) (c : Machine σ) (mode : AddressingMode) : Option (Machine σ) := do
  let addr ← Machine.get_operand_addressing M c mode
  let v ← Machine.mem_read M c addr
  let carry := CPUFlags.contains c.status CPUFlags.CARRY
  let c := if v >>> 7 = 1 then Machine.set_carry_flag c else Machine.remove_carry_flag c
  let value := (v <<< 1) % 256
  let value := if carry then value ||| 1 else value
  let c ← Machine.mem_write M c addr value
  pure (Machine.update_zero_and_set_negative_flags c value)

/-- `CPU::ror_a`: remember the old carry, carry from bit 0, shift right and
bring the old carry into bit 7; NZ set through set_register_a. -/
def Machine.ror_a (c : Machine σ) : Machine σ :=
  let value := c.register_a
  let carry := CPUFlags.contains c.status CPUFlags.CARRY
  let c := if value &&& 1 = 1 then Machine.set_carry_flag c else Machine.remove_carry_flag c
  let value := value >>> 1
  let value := if carry then value ||| 0x80 else value
  Machine.set_register_a c value

/-- `CPU::ror` (memory form).  Note the source ends with
update_negative_flags only: the zero flag is not updated here, unlike
ror_a. -/
def Machine.ror (M : MemIf σ) (c : Machine σ) (mode : AddressingMode) : Option (Machine σ) := do
  let addr ← Machine.get_operand_addressing M c mode
  let v ← Machine.mem_read M c addr
  let carry := CPUFlags.contains c.status CPUFlags.CARRY
  let c := if v &&& 1 = 1 then Machine.set_carry_flag c else Machine.remove_carry_flag c
  let value := v >>> 1
  let value := if carry then value ||| 0x80 else value
  let c ← Machine.mem_write M c addr value
  pure (Machine.update_negative_flags c value)

/-- `CPU::compare` from cpu.rs, shared by CMP/CPX/CPY: carry when the
memory operand is ≤ the register, NZ on register - memory (u8 wrap). -/
def Machine.compare (M : MemIf σ) (c : Machine σ) (mode : AddressingMode)
    (other : Nat) : Option (Machine σ) := do
  let addr ← Machine.get_operand_addressing M c mode
  let memory ← Machine.mem_read M c addr
  let c := if memory ≤ other then Machine.set_carry_flag c else Machine.remove_carry_flag c
  pure (Machine.update_zero_and_set_negative_flags c ((other + (256 - memory % 256)) % 256))

/-- `CPU::and`. -/
def Machine.and_i (M : MemIf σ) (c : Machine σ) (mode : AddressingMode) : Option (Machine σ) := do
  let addr ← Machine.get_operand_addressing M c mode
  let value ← Machine.mem_read M c addr
  pure (Machine.set_register_a c (c.register_a &&& value))

/-- `CPU::bit`: Z from A AND M, N from bit 7 of M, V from bit 6 of M. -/
def Machine.bit_i (M : MemIf σ) (c : Machine σ) (mode : AddressingMode) : Option (Machine σ) := do
  let addr ← Machine.get_operand_addressing M c mode
  let value ← Machine.mem_read M c addr
  let a := c.register_a &&& value
  let c :=
    if a = 0 then { c with status := CPUFlags.insert c.status CPUFlags.ZERO }
    else { c with status := CPUFlags.remove c.status CPUFlags.ZERO }
  let c := { c with status := CPUFlags.setFlag c.status CPUFlags.NEGATIVE (0 < value &&& 0x80) }
  pure { c with status := CPUFlags.setFlag c.status CPUFlags.OVERFLOW (0 < value &&& 0x40) }

/-- `CPU::eor`. -/
def Machine.eor (M : MemIf σ) (c : Machine σ) (mode : AddressingMode) : Option (Machine σ) := do
  let addr ← Machine.get_operand_addressing M c mode
  let value ← Machine.mem_read M c addr
  pure (Machine.set_register_a c (c.register_a ^^^ value))

/-- `CPU::ora`. -/
def Machine.ora (M : MemIf σ) (c : Machine σ) (mode : AddressingMode) : Option (Machine σ) := do
  let addr ← Machine.get_operand_addressing M c mode
  let value ← Machine.mem_read M c addr
  pure (Machine.set_register_a c (c.register_a ||| value))

/-- `CPU::jmp_absolute`: PC := read_u16(PC). -/
def Machine.jmp_absolute (M : MemIf σ) (c : Machine σ) : Option (Machine σ) :=
  (Machine.mem_read_u16 M c c.program_counter).map
    (fun target => { c with program_counter := target })

/-- `CPU::jmp_indirect` from cpu.rs, with the 6502 page-boundary bug: when
the pointer sits at the end of a page (low byte 0xFF) the high byte of the
target is read from the start of the same page instead of the next
address. -/
def Machine.jmp_indirect (M : MemIf σ) (c : Machine σ) : Option (Machine σ) := do
  let addr ← Machine.mem_read_u16 M c c.program_counter
  let indirect_ref ←
    if addr &&& 0x00ff = 0x00ff then do
      let lo ← Machine.mem_read M c addr
      let hi ← Machine.mem_read M c (addr &&& 0xff00)
      pure ((hi <<< 8) ||| lo)
    else
      Machine.mem_read_u16 M c addr
  pure { c with program_counter := indirect_ref }

/-- `CPU::jsr`: push PC + 1, then PC := read_u16(PC). -/
def Machine.jsr (M : MemIf σ) (c : Machine σ) : Option (Machine σ) := do
  let c ← Machine.stack_push_u16 M c ((c.program_counter + 1) % 65536)
  let target ← Machine.mem_read_u16 M c c.program_counter
  pure { c with program_counter := target }

/-- `CPU::rti`: pop status (clear BREAK, set EXPANSION), then pop PC. -/
def Machine.rti (M : MemIf σ) (c : Machine σ) : Option (Machine σ) := do
  let (c, value) ← Machine.stack_pop M c
  let c := { c with status := value }
  let c := { c with status := CPUFlags.remove c.status CPUFlags.BREAK }
  let c := { c with status := CPUFlags.insert c.status CPUFlags.EXPANSION }
  let (c, pc) ← Machine.stack_pop_u16 M c
  pure { c with program_counter := pc }

/-- `CPU::rts`: PC := pop_u16() + 1 (u16 wrap). -/
def Machine.rts (M : MemIf σ) (c : Machine σ) : Option (Machine σ) := do
  let (c, pc) ← Machine.stack_pop_u16 M c
  pure { c with program_counter := (pc + 1) % 65536 }

/-- `as i8 ... as u16` sign extension of a byte, used by branch offsets. -/
def i8_as_u16 (v : Nat) : Nat :=
  if v % 256 < 128 then v % 256 else v % 256 + 0xff00

/-- `CPU::branch`: when the condition holds, read the signed offset at PC
and set PC := PC + 1 + offset with u16 wraps. -/
def Machine.branch (M : MemIf σ) (c : Machine σ) (condition : Bool) : Option (Machine σ) :=
  if condition then
    (Machine.mem_read M c c.program_counter).map (fun jump =>
      { c with program_counter := (c.program_counter + 1 + i8_as_u16 jump) % 65536 })
  else
    some c

/-- The instruction dispatch of `CPU::run_with_callback` in cpu.rs: the
match on the fetched opcode byte.  The returned Bool is true exactly for
the BRK arm, which makes the loop return; the catch-all arm is the
source's todo macro, modelled as none. -/
def Machine.execute (M : MemIf σ) (c : Machine σ) (code : Nat)
    (mode : AddressingMode) : Option (Machine σ × Bool) :=
  if code = 0xa9 ∨ code = 0xa5 ∨ code = 0xb5 ∨ code = 0xad ∨ code = 0xbd ∨
      code = 0xb9 ∨ code = 0xa1 ∨ code = 0xb1 then
    (Machine.lda M c mode).map (fun c => (c, false))
  else if code = 0xa2 ∨ code = 0xae ∨ code = 0xbe ∨ code = 0xa6 ∨ code = 0xb6 then
    (Machine.ldx M c mode).map (fun c => (c, false))
  else if code = 0xa0 ∨ code = 0xac ∨ code = 0xbc ∨ code = 0xa4 ∨ code = 0xb4 then
    (Machine.ldy M c mode).map (fun c => (c, false))
  else if code = 0x85 ∨ code = 0x95 ∨ code = 0x8d ∨ code = 0x9d ∨ code = 0x99 ∨
      code = 0x81 ∨ code = 0x91 then
    (Machine.sta M c mode).map (fun c => (c, false))
  else if code = 0x8e ∨ code = 0x86 ∨ code = 0x96 then
    (Machine.stx M c mode).map (fun c => (c, false))
  else if code = 0x8c ∨ code = 0x84 ∨ code = 0x94 then
    (Machine.sty M c mode).map (fun c => (c, false))
  else if code = 0x69 ∨ code = 0x65 ∨ code = 0x75 ∨ code = 0x6d ∨ code = 0x7d ∨
      code = 0x79 ∨ code = 0x61 ∨ code = 0x71 then
    (Machine.adc M c mode).map (fun c => (c, false))
  else if code = 0xe9 ∨ code = 0xe5 ∨ code = 0xf5 ∨ code = 0xed ∨ code = 0xfd ∨
      code = 0xf9 ∨ code = 0xe1 ∨ code = 0xf1 then
    (Machine.sbc M c mode).map (fun c => (c, false))
  else if code = 0x0a then
    some (Machine.asl_a c, false)
  else if code = 0x0e ∨ code = 0x1e ∨ code = 0x06 ∨ code = 0x16 then
    (Machine.asl M c mode).map (fun c => (c, false))
  else if code = 0x4a then
    some (Machine.lsr_a c, false)
  else if code = 0x4e ∨ code = 0x5e ∨ code = 0x46 ∨ code = 0x56 then
    (Machine.lsr M c mode).map (fun c => (c, false))
  else if code = 0x2a then
    some (Machine.rol_a c, false)
  else if code = 0x2e ∨ code = 0x3e ∨ code = 0x26 ∨ code = 0x36 then
    (Machine.rol M c mode).map (fun c => (c, false))
  else if code = 0x6a then
    some (Machine.ror_a c, false)
  else if code = 0x6e ∨ code = 0x7e ∨ code = 0x66 ∨ code = 0x76 then
    (Machine.ror M c mode).map (fun c => (c, false))
  else if code = 0xce ∨ code = 0xde ∨ code = 0xc6 ∨ code = 0xd6 then
    (Machine.dec M c mode).map (fun c => (c, false))
  else if code = 0xee ∨ code = 0xfe ∨ code = 0xe6 ∨ code = 0xf6 then
    (Machine.inc M c mode).map (fun c => (c, false))
  else if code = 0xc9 ∨ code = 0xcd ∨ code = 0xdd ∨ code = 0xd9 ∨ code = 0xc5 ∨
      code = 0xd5 ∨ code = 0xc1 ∨ code = 0xd1 then
    (Machine.compare M c mode c.register_a).map (fun c => (c, false))
  else if code = 0xe0 ∨ code = 0xec ∨ code = 0xe4 then
    (Machine.compare M c mode c.register_x).map (fun c => (c, false))
  else if code = 0xc0 ∨ code = 0xcc ∨ code = 0xc4 then
    (Machine.compare M c mode c.register_y).map (fun c => (c, false))
  else if code = 0x29 ∨ code = 0x2d ∨ code = 0x3d ∨ code = 0x39 ∨ code = 0x25 ∨
      code = 0x35 ∨ code = 0x21 ∨ code = 0x31 then
    (Machine.and_i M c mode).map (fun c => (c, false))
  else if code = 0x2c ∨ code = 0x24 then
    (Machine.bit_i M c mode).map (fun c => (c, false))
  else if code = 0x49 ∨ code = 0x4d ∨ code = 0x5d ∨ code = 0x59 ∨ code = 0x45 ∨
      code = 0x55 ∨ code = 0x41 ∨ code = 0x51 then
    (Machine.eor M c mode).map (fun c => (c, false))
  else if code = 0x09 ∨ code = 0x0d ∨ code = 0x1d ∨ code = 0x19 ∨ code = 0x05 ∨
      code = 0x15 ∨ code = 0x01 ∨ code = 0x11 then
    (Machine.ora M c mode).map (fun c => (c, false))
  else if code = 0x90 then
    (Machine.branch M c (!CPUFlags.contains c.status CPUFlags.CARRY)).map (fun c => (c, false))
  else if code = 0xb0 then
    (Machine.branch M c (CPUFlags.contains c.status CPUFlags.CARRY)).map (fun c => (c, false))
  else if code = 0xd0 then
    (Machine.branch M c (!CPUFlags.contains c.status CPUFlags.ZERO)).map (fun c => (c, false))
  else if code = 0xf0 then
    (Machine.branch M c (CPUFlags.contains c.status CPUFlags.ZERO)).map (fun c => (c, false))
  else if code = 0x10 then
    (Machine.branch M c (!CPUFlags.contains c.status CPUFlags.NEGATIVE)).map (fun c => (c, false))
  else if code = 0x30 then
    (Machine.branch M c (CPUFlags.contains c.status CPUFlags.NEGATIVE)).map (fun c => (c, false))
  else if code = 0x50 then
    (Machine.branch M c (!CPUFlags.contains c.status CPUFlags.OVERFLOW)).map (fun c => (c, false))
  else if code = 0x70 then
    (Machine.branch M c (CPUFlags.contains c.status CPUFlags.OVERFLOW)).map (fun c => (c, false))
  else if code = 0x18 then
    some (Machine.remove_carry_flag c, false)
  else if code = 0xd8 then
    some ({ c with status := CPUFlags.remove c.status CPUFlags.DECIMAL }, false)
  else if code = 0x58 then
    some ({ c with status := CPUFlags.remove c.status CPUFlags.INTERRUPT_DISABLE }, false)
  else if code = 0xb8 then
    some ({ c with status := CPUFlags.remove c.status CPUFlags.OVERFLOW }, false)
  else if code = 0x38 then
    some (Machine.set_carry_flag c, false)
  else if code = 0xf8 then
    some ({ c with status := CPUFlags.insert c.status CPUFlags.DECIMAL }, false)
  else if code = 0x78 then
    some ({ c with status := CPUFlags.insert c.status CPUFlags.INTERRUPT_DISABLE }, false)
  else if code = 0x4c then
    (Machine.jmp_absolute M c).map (fun c => (c, false))
  else if code = 0x6c then
    (Machine.jmp_indirect M c).map (fun c => (c, false))
  else if code = 0x20 then
    (Machine.jsr M c).map (fun c => (c, false))
  else if code = 0x40 then
    (Machine.rti M c).map (fun c => (c, false))
  else if code = 0x60 then
    (Machine.rts M c).map (fun c => (c, false))
  else if code = 0x48 then
    (Machine.pha M c).map (fun c => (c, false))
  else if code = 0x08 then
    (Machine.php M c).map (fun c => (c, false))
  else if code = 0x68 then
    (Machine.pla M c).map (fun c => (c, false))
  else if code = 0x28 then
    (Machine.plp M c).map (fun c => (c, false))
  else if code = 0xaa then
    some (Machine.tax c, false)
  else if code = 0xa8 then
    some (Machine.tay c, false)
  else if code = 0xba then
    some (Machine.tsx c, false)
  else if code = 0x8a then
    some (Machine.txa c, false)
  else if code = 0x9a then
    some (Machine.txs c, false)
  else if code = 0x98 then
    some (Machine.tya c, false)
  else if code = 0xca then
    some (Machine.dex c, false)
  else if code = 0x88 then
    some (Machine.dey c, false)
  else if code = 0xe8 then
    some (Machine.inx c, false)
  else if code = 0xc8 then
    some (Machine.iny c, false)
  else if code = 0xea then
    some (c, false)
  else if code = 0x00 then
    (Machine.brk M c).map (fun c => (c, true))
  else
    none

/-- The fetch-decode-execute loop of `CPU::run_with_callback` (with the
trivial callback, i.e. `CPU::run`): fetch at PC, advance PC, look up the
opcode (the source unwraps, so a missing entry is a fatal none), dispatch,
and when the body left PC untouched advance it by len - 1.  The BRK arm
returns.  The fuel argument bounds the number of iterations: the source
loops without bound, and exhausting fuel yields none. -/
def Machine.run (M : MemIf σ) : Nat → Machine σ → Option (Machine σ)
  | 0, _ => none
  | fuel + 1, c => do
      let code ← Machine.mem_read M c c.program_counter
      let c := { c with program_counter := (c.program_counter + 1) % 65536 }
      let program_counter_state := c.program_counter
      let op ← opLookup code
      let (c, done) ← Machine.execute M c code op.mode
      if done then
        pure c
      else
        let c :=
          if c.program_counter = program_counter_state then
            { c with program_counter := (c.program_counter + (op.len - 1)) % 65536 }
          else c
        Machine.run M fuel c

/-- Modelled from the spec: the machine `CPU::new()` hands to the snippet
tests — registers zero, S = STACK_RESET, P = 0b100100, PC = 0 — over the
flat snippet memory (see snippetIf: the argumentless bus constructor that
cpu.rs calls is missing from src/). -/
def Machine.newSnippet : Machine Ram :=
  { register_a := 0, register_x := 0, register_y := 0, status := 0b100100,
    stack_pointer := STACK_RESET, program_counter := 0, mem := fun _ => 0 }

/-- The same initial register state placed on the bus of src/src/bus.rs. -/
def Machine.newWithBus (rom : ROM) : Machine Bus :=
  { register_a := 0, register_x := 0, register_y := 0, status := 0b100100,
    stack_pointer := STACK_RESET, program_counter := 0, mem := Bus.new rom }

/-- The spec's SBC no-borrow scenario, exactly as the source test
test_sbc_0x00_sub_0x05 runs it: load [0xE5, 0x10, 0x00], reset (A is
already 0), write 0x05 at 0x10, run until BRK. -/
def sbcUnderflowRun : Option (Machine Ram) :=
  (Machine.load snippetIf Machine.newSnippet [0xe5, 0x10, 0x00]).bind
    (Machine.reset snippetIf)
  |>.bind (fun c => Machine.mem_write snippetIf c 0x10 0x05)
  |>.bind (Machine.run snippetIf 10)

/-- The spec's JMP-indirect page-boundary scenario, exactly as the source
test test_0x6c_jmp_page_bug runs it: load [0x6C, 0xFF, 0x30, 0x00], reset,
write 0x40 at 0x3000, 0x80 at 0x30FF, 0x50 at 0x3100, run until BRK. -/
def jmpBugRun : Option (Machine Ram) :=
  (Machine.load snippetIf Machine.newSnippet [0x6c, 0xff, 0x30, 0x00]).bind
    (Machine.reset snippetIf)
  |>.bind (fun c => Machine.mem_write snippetIf c 0x3000 0x40)
  |>.bind (fun c => Machine.mem_write snippetIf c 0x30ff 0x80)
  |>.bind (fun c => Machine.mem_write snippetIf c 0x3100 0x50)
  |>.bind (Machine.run snippetIf 10)

/-- The memory of the page-boundary scenario at the moment the loop has
fetched the 0x6C opcode byte (program loaded at 0x0600, reset vector
written, the three data bytes in place). -/
def jmpBugMem : Ram := fun a =>
  if a = 0x3100 then 0x50 else if a = 0x30ff then 0x80 else
  if a = 0x3000 then 0x40 else if a = 0x0600 then 0x6c else
  if a = 0x0601 then 0xff else if a = 0x0602 then 0x30 else
  if a = 0xfffd then 0x06 else 0

/-- The page-boundary scenario machine positioned right after the fetch of
the 0x6C byte: PC points at the operand (0x0601). -/
def jmpBugReady : Machine Ram :=
  { Machine.newSnippet with program_counter := 0x0601, mem := jmpBugMem }

/-- A variant of the scenario whose pointer 0x30FE does not sit at a page
boundary, as in the source test test_0x6c_jmp: [0x30FE] = 0x80 is the low
byte and [0x30FF] = 0x40 the high byte of the target. -/
def jmpPlainMem : Ram := fun a =>
  if a = 0x3100 then 0x50 else if a = 0x30ff then 0x40 else
  if a = 0x30fe then 0x80 else if a = 0x0600 then 0x6c else
  if a = 0x0601 then 0xfe else if a = 0x0602 then 0x30 else
  if a = 0xfffd then 0x06 else 0

/-- The non-boundary variant positioned right after the fetch of 0x6C. -/
def jmpPlainReady : Machine Ram :=
  { Machine.newSnippet with program_counter := 0x0601, mem := jmpPlainMem }

/-- The carry-flag step `if b { set_carry_flag } else { remove_carry_flag }`
expressed on a bare status byte (proof helper). -/
def carryF (s : Nat) (b : Bool) : Nat :=
  if b then CPUFlags.insert s CPUFlags.CARRY else CPUFlags.remove s CPUFlags.CARRY

/-- The zero-flag step of update_zero_flags on a bare status byte. -/
def zeroF (s : Nat) (b : Bool) : Nat :=
  if b then CPUFlags.insert s CPUFlags.ZERO else CPUFlags.remove s CPUFlags.ZERO

/-- The negative-flag step of update_negative_flags on a bare status byte. -/
def negF (s : Nat) (b : Bool) : Nat :=
  if b then CPUFlags.insert s CPUFlags.NEGATIVE else CPUFlags.remove s CPUFlags.NEGATIVE

/-- The overflow-flag step of add_to_register_a on a bare status byte
(proof helper). -/
def ovF (s : Nat) (b : Bool) : Nat :=
  if b then CPUFlags.insert s CPUFlags.OVERFLOW else CPUFlags.remove s CPUFlags.OVERFLOW

/-- update_zero_and_set_negative_flags only rewrites the status, in the
zeroF-then-negF form. -/
theorem uzn_eq (c : Machine σ) (v : Nat) :
    Machine.update_zero_and_set_negative_flags c v =
      { c with status := negF (zeroF c.status (decide (v = 0)))
                              (decide (v &&& 0x80 ≠ 0)) } := by
  by_cases h1 : v = 0 <;> by_cases h2 : v &&& 0x80 ≠ 0 <;>
    simp [Machine.update_zero_and_set_negative_flags, Machine.update_zero_flags,
      Machine.update_negative_flags, zeroF, negF, h1, h2]

/-- update_negative_flags only rewrites the status, in negF form. -/
theorem un_eq (c : Machine σ) (v : Nat) :
    Machine.update_negative_flags c v =
      { c with status := negF c.status (decide (v &&& 0x80 ≠ 0)) } := by
  by_cases h2 : v &&& 0x80 ≠ 0 <;> simp [Machine.update_negative_flags, negF, h2]

/-- The carry branch the instruction bodies use, in carryF form. -/
theorem carry_ite_eq (c : Machine σ) (P : Prop) [Decidable P] :
    (if P then Machine.set_carry_flag c else Machine.remove_carry_flag c) =
      { c with status := carryF c.status (decide P) } := by
  by_cases h : P <;>
    simp [Machine.set_carry_flag, Machine.remove_carry_flag, carryF, h]

/-- Bit extraction through a carry-zero-negative update chain: the three
queried flags take exactly the branch values and nothing leaks between
bits (checked for every status byte). -/
theorem czn3 (bc bz bn : Bool) : ∀ s, s < 256 →
    CPUFlags.contains (negF (zeroF (carryF s bc) bz) bn) CPUFlags.CARRY = bc ∧
    CPUFlags.contains (negF (zeroF (carryF s bc) bz) bn) CPUFlags.ZERO = bz ∧
    CPUFlags.contains (negF (zeroF (carryF s bc) bz) bn) CPUFlags.NEGATIVE = bn := by
  cases bc <;> cases bz <;> cases bn <;> decide

/-- Bit extraction through a carry-negative update chain (no zero step, as
in the memory form of ROR): carry and negative take the branch values and
the zero flag is untouched. -/
theorem cn2 (bc bn : Bool) : ∀ s, s < 256 →
    CPUFlags.contains (negF (carryF s bc) bn) CPUFlags.CARRY = bc ∧
    CPUFlags.contains (negF (carryF s bc) bn) CPUFlags.ZERO =
      CPUFlags.contains s CPUFlags.ZERO ∧
    CPUFlags.contains (negF (carryF s bc) bn) CPUFlags.NEGATIVE = bn := by
  cases bc <;> cases bn <;> decide

/-- For a byte, testing bit 7 by masking agrees with the ≥ 0x80 reading. -/
theorem bit7_eq : ∀ v, v < 256 → decide (v &&& 0x80 ≠ 0) = decide (128 ≤ v) := by
  decide

/-- A right shift of a byte, with or without bit 7 forced on, is a byte. -/
theorem ror_bounds : ∀ v, v < 256 → v >>> 1 < 256 ∧ (v >>> 1) ||| 128 < 256 := by
  decide

/-- Stack addresses are left alone by the 16-bit mask in Bus::mem_write and
stay inside vram. -/
theorem stack_mirror : ∀ sp, sp < 256 →
    (0x100 + sp) &&& 0xffff = 0x100 + sp ∧ 0x100 + sp < 2048 ∧
    0x100 + sp ≤ 0x1fff := by
  decide

/-- Claim C1: the spec says a bus write in 0x0000-0x1FFF stores into
ram[addr & 0x07FF] and never fails fatally.  The code's write arm masks
with 0xFFFF instead of 0x07FF, so any write to the mirrored range
0x0800-0x1FFF indexes the 2048-byte vram out of bounds and panics; the
read side mirrors correctly and an un-mirrored write succeeds. -/
theorem C1_write_mirror_panic :
    Bus.mem_read (Bus.new ⟨[]⟩) 0x0800 = some 0 ∧
    Bus.mem_write (Bus.new ⟨[]⟩) 0x0800 0xAB = none ∧
    (Bus.mem_write (Bus.new ⟨[]⟩) 0x07ff 0xCD).isSome = true :=
  ⟨rfl, rfl, rfl⟩

/-- Claim C2: the spec says every defined official opcode the dispatcher
handles is present in the table.  The table has no entry for CMP AbsoluteX
(0xDD, mistyped as a second 0xD9), nor for any AND/BIT/EOR/ORA, branch,
JMP, JSR, RTS or flag-op byte, so the loop's unwrapped lookup fails on
each of them. -/
theorem C2_table_missing_opcodes :
    opLookup 0xdd = none ∧ opLookup 0x29 = none ∧ opLookup 0x2c = none ∧
    opLookup 0x49 = none ∧ opLookup 0x09 = none ∧ opLookup 0x90 = none ∧
    opLookup 0xf0 = none ∧ opLookup 0x4c = none ∧ opLookup 0x6c = none ∧
    opLookup 0x20 = none ∧ opLookup 0x60 = none ∧ opLookup 0x18 = none ∧
    opLookup 0xb8 = none ∧
    (CPU_OP_CODES.filter (fun op => op.code == 0xd9)).length = 2 ∧
    (CPU_OP_CODES.filter (fun op => op.code == 0xdd)).length = 0 :=
  ⟨rfl, rfl, rfl, rfl, rfl, rfl, rfl, rfl, rfl, rfl, rfl, rfl, rfl, rfl, rfl⟩

/-- Claim C3: the spec says load(p) always completes and leaves the reset
vector readable as 0x0600.  Through the bus of src/src/bus.rs the final
mem_write_u16(0xFFFC, 0x0600) falls into the 0x8000-0xFFFF write arm,
which panics (write to cartridge ROM space), so load fails on every
program; shown here on the two-byte program the source's own TAX test
loads. -/
theorem C3_load_write_to_rom_panics :
    Machine.load busIf (Machine.newWithBus ⟨[]⟩) [0xAA, 0x00] = none := rfl

/-- Claim C6: the jmp_indirect body implements exactly the claimed
page-boundary behaviour — on the scenario memory the pointer 0x30FF takes
the high byte from 0x3000 and yields PC = 0x4080, and the non-boundary
pointer 0x30FE takes its high byte from 0x30FF — but the full scenario run
dies at the opcode-table lookup, because CPU_OP_CODES has no 0x6C entry,
so the loop never reaches the instruction, let alone the expected final
PC of 0x4081. -/
theorem C6_jmp_indirect_scenar :
    (Machine.jmp_indirect snippetIf jmpBugReady).map
      (fun c => c.program_counter) = some 0x4080 ∧
    (Machine.jmp_indirect snippetIf jmpPlainReady).map
      (fun c => c.program_counter) = some 0x4080 ∧
    opLookup 0x6c = none ∧
    jmpBugRun = none :=
  ⟨rfl, rfl, rfl, rfl⟩

/-- Claim C8: SBC feeds the ADC path the two's-complement-minus-one of the
operand byte, which is its bitwise complement 255 - M; and the spec's
no-borrow underflow scenario (program [0xE5, 0x10, 0x00], A = 0, [0x10] =
5, carry clear after reset) ends with A = 0xFA. -/
theorem C8_sbc_complement_and_underflow :
    (∀ v : Nat, sbcOperand v = 255 - v % 256) ∧
    (∀ c : Machine Ram,
      Machine.sbc snippetIf c .Immediate =
        some (Machine.add_to_register_a c (sbcOperand (c.mem c.program_counter)))) ∧
    sbcUnderflowRun.map (fun c => c.register_a) = some 0xfa := by
  refine ⟨?_, fun c => rfl, rfl⟩
  intro v
  have h : v % 256 < 256 := Nat.mod_lt _ (by omega)
  unfold sbcOperand
  omega

/-- The overflow branch of add_to_register_a, in ovF form. -/
theorem ov_ite_eq (c : Machine σ) (s : Nat) (P : Prop) [Decidable P] :
    (if P then { c with status := CPUFlags.insert s CPUFlags.OVERFLOW }
     else { c with status := CPUFlags.remove s CPUFlags.OVERFLOW }) =
      { c with status := ovF s (decide P) } := by
  by_cases h : P <;> simp [ovF, h]

/-- Normal form of the shared ADC path: A becomes the sum modulo 256 and
the status passes through the carry, overflow, zero and negative steps in
order, everything else untouched. -/
theorem add_to_register_a_eq (c : Machine σ) (data : Nat) :
    Machine.add_to_register_a c data =
      { c with
        register_a := (c.register_a + data + Machine.get_carry c) % 256,
        status :=
          negF
            (zeroF
              (ovF
                (carryF c.status
                  (decide (0xff < c.register_a + data + Machine.get_carry c)))
                (decide ((data ^^^ (c.register_a + data + Machine.get_carry c) % 256) &&&
                    (c.register_a ^^^ (c.register_a + data + Machine.get_carry c) % 256) &&&
                    0x80 ≠ 0)))
              (decide ((c.register_a + data + Machine.get_carry c) % 256 = 0)))
            (decide ((c.register_a + data + Machine.get_carry c) % 256 &&& 0x80 ≠ 0)) } := by
  simp only [Machine.add_to_register_a]
  rw [carry_ite_eq]
  rw [ov_ite_eq]
  simp only [Machine.set_register_a]
  rw [uzn_eq]

/-- Claim C9: the ADC path is commutative in the accumulator and the
operand — swapping A and M yields the same result byte and the same
carry-out (in fact the same machine). -/
theorem C9_adc_commutative (c : Machine Ram) (a m : Nat) :
    (Machine.add_to_register_a { c with register_a := a } m).register_a =
      (Machine.add_to_register_a { c with register_a := m } a).register_a ∧
    CPUFlags.contains
        (Machine.add_to_register_a { c with register_a := a } m).status
        CPUFlags.CARRY =
      CPUFlags.contains
        (Machine.add_to_register_a { c with register_a := m } a).status
        CPUFlags.CARRY := by
  have key : Machine.add_to_register_a { c with register_a := a } m =
      Machine.add_to_register_a { c with register_a := m } a := by
    rw [add_to_register_a_eq, add_to_register_a_eq]
    simp only [Machine.get_carry]
    dsimp only
    rw [Nat.add_comm m a]
    simp only [Nat.land_comm]
  rw [key]
  exact ⟨rfl, rfl⟩

/-- Claim C5: over a total memory the 16-bit helpers of the Mem trait are
defined at every address including 0xFFFF: the read takes its low byte at
addr and its high byte at (addr + 1) mod 2^16, and the write stores the low
byte at addr and the high byte at (addr + 1) mod 2^16, both bytes readable
back (the u16 increment wraps, per the spec's modulo-2^n invariant, which
is the release behaviour of the source's addr + 1). -/
theorem C5_u16_helpers (c : Machine Ram) (addr data : Nat) (h : addr < 65536) :
    Machine.mem_read_u16 snippetIf c addr =
      some ((c.mem ((addr + 1) % 65536) <<< 8) ||| c.mem addr) ∧
    ∃ c', Machine.mem_write_u16 snippetIf c addr data = some c' ∧
      Machine.mem_read snippetIf c' addr = some (data &&& 0xff) ∧
      Machine.mem_read snippetIf c' ((addr + 1) % 65536) = some ((data >>> 8) % 256) := by
  have hne : addr ≠ (addr + 1) % 65536 := by
    rcases eq_or_ne addr 65535 with h1 | h1
    · subst h1; decide
    · rw [Nat.mod_eq_of_lt (by omega)]; omega
  refine ⟨rfl, _, rfl, ?_, ?_⟩
  · simp [Machine.mem_read, Machine.mem_write_u16, Machine.mem_write, snippetIf, hne]
  · simp [Machine.mem_read, Machine.mem_write_u16, Machine.mem_write, snippetIf]

/-- Closed instance of C5_u16_helpers at the wrap-around address 0xFFFF:
the high byte goes to and comes from address 0x0000. -/
theorem C5_u16_helpers_witness :
    Machine.mem_read_u16 snippetIf Machine.newSnippet 0xFFFF = some 0 ∧
    ∃ c', Machine.mem_write_u16 snippetIf Machine.newSnippet 0xFFFF 0xABCD = some c' ∧
      Machine.mem_read snippetIf c' 0xFFFF = some 0xCD ∧
      Machine.mem_read snippetIf c' 0 = some 0xAB := by
  have h := C5_u16_helpers Machine.newSnippet 0xFFFF 0xABCD (by decide)
  exact ⟨h.1, h.2⟩

/-- Claim C7: the shared compare body (CMP/CPX/CPY against a register value
R, here at the Immediate mode so that M is the byte at PC) sets the carry
flag exactly when M ≤ R, and sets the zero and negative flags from the
byte (R - M) & 0xFF (written as the source's wrapping subtraction). -/
theorem C7_compare_flags (c : Machine Ram) (R : Nat) (hs : c.status < 256)
    (_hR : R < 256) (_hM : c.mem c.program_counter < 256) :
    (Machine.compare snippetIf c .Immediate R).map (fun c' =>
      (CPUFlags.contains c'.status CPUFlags.CARRY,
       CPUFlags.contains c'.status CPUFlags.ZERO,
       CPUFlags.contains c'.status CPUFlags.NEGATIVE)) =
    some (decide (c.mem c.program_counter ≤ R),
          decide ((R + (256 - c.mem c.program_counter % 256)) % 256 = 0),
          decide (128 ≤ (R + (256 - c.mem c.program_counter % 256)) % 256)) := by
  have h1 : Machine.compare snippetIf c .Immediate R =
      some (Machine.update_zero_and_set_negative_flags
        (if c.mem c.program_counter ≤ R then Machine.set_carry_flag c
         else Machine.remove_carry_flag c)
        ((R + (256 - c.mem c.program_counter % 256)) % 256)) := rfl
  have hvlt : (R + (256 - c.mem c.program_counter % 256)) % 256 < 256 :=
    Nat.mod_lt _ (by omega)
  obtain ⟨e1, e2, e3⟩ := czn3 (decide (c.mem c.program_counter ≤ R))
    (decide ((R + (256 - c.mem c.program_counter % 256)) % 256 = 0))
    (decide ((R + (256 - c.mem c.program_counter % 256)) % 256 &&& 0x80 ≠ 0))
    c.status hs
  rw [h1, carry_ite_eq, uzn_eq]
  simp only [Option.map_some']
  rw [e1, e2, e3, bit7_eq _ hvlt]

/-- Closed instance of C7_compare_flags: comparing R = 15 with M = 10 sets
carry and clears zero and negative. -/
theorem C7_compare_flags_witness :
    (Machine.compare snippetIf { Machine.newSnippet with mem := fun _ => 10 }
        .Immediate 15).map (fun c' =>
      (CPUFlags.contains c'.status CPUFlags.CARRY,
       CPUFlags.contains c'.status CPUFlags.ZERO,
       CPUFlags.contains c'.status CPUFlags.NEGATIVE)) =
      some (true, false, false) :=
  C7_compare_flags { Machine.newSnippet with mem := fun _ => 10 } 15
    (by decide) (by decide) (by decide)

/-- Claim C4 counterexample: a state where the memory form of ROR produces
the result byte 0 (input 0x01, carry clear) yet leaves the zero flag clear,
so the memory form does not set Z to (result == 0) as the claim states for
both forms. -/
theorem C4_ror_zero_flag_cex :
    (Machine.ror snippetIf
        { Machine.newSnippet with
          mem := fun a => if a = 0x10 then 0x01 else if a = 0 then 0x10 else 0 }
        .ZeroPage).map (fun c' =>
      (c'.mem 0x10, CPUFlags.contains c'.status CPUFlags.ZERO)) =
      some (0, false) := rfl


/-- Claim C4 (amended): the memory form of ROR agrees with the accumulator
form on the carry (bit 0 of the input), the written result
(input >> 1) | (old_carry << 7) and the negative flag (bit 7 of the
result), but unlike the accumulator form — whose zero flag becomes
(result == 0), shown in the second conjunct — it leaves the zero flag
unchanged. -/
theorem C4_ror_memory (c : Machine Ram) (hs : c.status < 256)
    (hv : c.mem (c.mem c.program_counter) < 256) (_ha : c.register_a < 256) :
    (∃ c', Machine.ror snippetIf c .ZeroPage = some c' ∧
      c'.mem = (fun i => if i = c.mem c.program_counter
        then (c.mem (c.mem c.program_counter) >>> 1) |||
          ((if CPUFlags.contains c.status CPUFlags.CARRY then 1 else 0) <<< 7)
        else c.mem i) ∧
      CPUFlags.contains c'.status CPUFlags.CARRY =
        decide (c.mem (c.mem c.program_counter) &&& 1 = 1) ∧
      CPUFlags.contains c'.status CPUFlags.NEGATIVE =
        decide (128 ≤ (c.mem (c.mem c.program_counter) >>> 1) |||
          ((if CPUFlags.contains c.status CPUFlags.CARRY then 1 else 0) <<< 7)) ∧
      CPUFlags.contains c'.status CPUFlags.ZERO =
        CPUFlags.contains c.status CPUFlags.ZERO ∧
      c'.register_a = c.register_a) ∧
    CPUFlags.contains (Machine.ror_a c).status CPUFlags.ZERO =
      decide ((c.register_a >>> 1) |||
        ((if CPUFlags.contains c.status CPUFlags.CARRY then 1 else 0) <<< 7) = 0) := by
  constructor
  · have h1 : Machine.ror snippetIf c .ZeroPage =
        some (Machine.update_negative_flags
          { (if c.mem (c.mem c.program_counter) &&& 1 = 1 then Machine.set_carry_flag c
             else Machine.remove_carry_flag c) with
            mem := fun i =>
              if i = c.mem c.program_counter then
                (if CPUFlags.contains c.status CPUFlags.CARRY = true then
                  c.mem (c.mem c.program_counter) >>> 1 ||| 128
                else c.mem (c.mem c.program_counter) >>> 1)
              else (if c.mem (c.mem c.program_counter) &&& 1 = 1 then Machine.set_carry_flag c
                    else Machine.remove_carry_flag c).mem i }
          (if CPUFlags.contains c.status CPUFlags.CARRY = true then
            c.mem (c.mem c.program_counter) >>> 1 ||| 128
          else c.mem (c.mem c.program_counter) >>> 1)) := rfl
    rw [h1]
    simp only [carry_ite_eq, un_eq]
    by_cases hcy : CPUFlags.contains c.status CPUFlags.CARRY = true
    · simp only [hcy, eq_self_iff_true, if_true, Bool.false_eq_true, if_false]
      obtain ⟨e1, e2, e3⟩ := cn2 (decide (c.mem (c.mem c.program_counter) &&& 1 = 1))
        (decide ((c.mem (c.mem c.program_counter) >>> 1 ||| 128) &&& 0x80 ≠ 0)) c.status hs
      refine ⟨_, rfl, ?_, e1, ?_, e2, rfl⟩
      · simp
      · rw [e3, bit7_eq _ (ror_bounds _ hv).2]
        simp
    · simp only [hcy, eq_self_iff_true, if_true, Bool.false_eq_true, if_false]
      obtain ⟨e1, e2, e3⟩ := cn2 (decide (c.mem (c.mem c.program_counter) &&& 1 = 1))
        (decide ((c.mem (c.mem c.program_counter) >>> 1) &&& 0x80 ≠ 0)) c.status hs
      refine ⟨_, rfl, ?_, e1, ?_, e2, rfl⟩
      · simp
      · rw [e3, bit7_eq _ (ror_bounds _ hv).1]
        simp
  · have h2 : Machine.ror_a c =
        Machine.set_register_a
          (if c.register_a &&& 1 = 1 then Machine.set_carry_flag c
           else Machine.remove_carry_flag c)
          (if CPUFlags.contains c.status CPUFlags.CARRY = true then
            c.register_a >>> 1 ||| 128
          else c.register_a >>> 1) := rfl
    rw [h2]
    simp only [carry_ite_eq, Machine.set_register_a]
    rw [uzn_eq]
    by_cases hcy : CPUFlags.contains c.status CPUFlags.CARRY = true
    · simp only [hcy, eq_self_iff_true, if_true, Bool.false_eq_true, if_false]
      obtain ⟨f1, f2, f3⟩ := czn3 (decide (c.register_a &&& 1 = 1))
        (decide ((c.register_a >>> 1 ||| 128) = 0))
        (decide ((c.register_a >>> 1 ||| 128) &&& 0x80 ≠ 0)) c.status hs
      rw [f2]
      simp
    · simp only [hcy, eq_self_iff_true, if_true, Bool.false_eq_true, if_false]
      obtain ⟨f1, f2, f3⟩ := czn3 (decide (c.register_a &&& 1 = 1))
        (decide ((c.register_a >>> 1) = 0))
        (decide ((c.register_a >>> 1) &&& 0x80 ≠ 0)) c.status hs
      rw [f2]
      simp

/-- Closed instance of C4_ror_memory: on a machine whose accumulator is 0
with carry clear, the accumulator ROR yields 0 and does set the zero
flag. -/
theorem C4_ror_memory_witness :
    CPUFlags.contains
        (Machine.ror_a { Machine.newSnippet with mem := (fun _ => 3 : Ram) }).status
        CPUFlags.ZERO = true :=
  (C4_ror_memory { Machine.newSnippet with mem := (fun _ => 3 : Ram) }
    (by decide) (by decide) (by decide)).2

/-- Claim C10: executing the brk body changes only the
INTERRUPT_DISABLE bit of the live status (set), the stack pointer
(decremented by one modulo 256) and the single stack byte at
0x0100 + S, which receives a copy of the (updated) status with BREAK and
EXPANSION forced on; A, X, Y, PC, every other live status bit (BREAK
included) and all other memory are unchanged. -/
theorem C10_brk_frame (c : Machine Bus) (hsp : c.stack_pointer < 256) :
    Machine.brk busIf c = some
      { c with
        status := CPUFlags.insert c.status CPUFlags.INTERRUPT_DISABLE,
        stack_pointer := (c.stack_pointer + 255) % 256,
        mem :=
          { c.mem with
            vram := fun i =>
              if i = STACK + c.stack_pointer then
                CPUFlags.insert (CPUFlags.insert
                  (CPUFlags.insert c.status CPUFlags.INTERRUPT_DISABLE)
                  CPUFlags.EXPANSION) CPUFlags.BREAK
              else c.mem.vram i } } := by
  obtain ⟨h1, h2, h3⟩ := stack_mirror c.stack_pointer hsp
  simp only [Machine.brk, Machine.clone_status, Machine.stack_push, Machine.mem_write,
    busIf, Bus.mem_write, STACK]
  rw [if_pos h3, h1, if_pos h2]
  rfl

/-- Closed instance of C10_brk_frame on the freshly constructed machine. -/
theorem C10_brk_frame_witness :
    Machine.brk busIf (Machine.newWithBus ⟨[]⟩) = some
      { Machine.newWithBus ⟨[]⟩ with
        status := CPUFlags.insert (Machine.newWithBus ⟨[]⟩).status
          CPUFlags.INTERRUPT_DISABLE,
        stack_pointer := ((Machine.newWithBus ⟨[]⟩).stack_pointer + 255) % 256,
        mem :=
          { (Machine.newWithBus ⟨[]⟩).mem with
            vram := fun i =>
              if i = STACK + (Machine.newWithBus ⟨[]⟩).stack_pointer then
                CPUFlags.insert (CPUFlags.insert
                  (CPUFlags.insert (Machine.newWithBus ⟨[]⟩).status
                    CPUFlags.INTERRUPT_DISABLE)
                  CPUFlags.EXPANSION) CPUFlags.BREAK
              else (Machine.newWithBus ⟨[]⟩).mem.vram i } } :=
  C10_brk_frame (Machine.newWithBus ⟨[]⟩) (by decide)
